import Mathlib

/-!
Shallow embedding of the run-orchestration core of the
jenkins-automated-game-player repository: the Execution Guard
(src/errorHandler.js: retryWithBackoff, withTimeout, safeExecute),
the Failure Classifier (shouldContinue), the Session Runner
(gamePlayer.js: playScenarios, determineChoice, playGame, cleanup)
and the Run Coordinator (scheduler.js: runGame).

Asynchronous JS operations are modelled as sequences of settled
outcomes: `op i` is the result of invocation number `i` (0-indexed) of
the wrapped zero-argument action, and `dur i` the wall-clock duration
in milliseconds of that invocation.  Errors carry their message string,
since the classifier only inspects `error.message`.
-/

namespace JenkinsGame

/-- The `config.errorHandling` slice consumed by `ErrorHandler`. -/
structure ErrorHandlingConfig where
  maxRetries : Nat
  retryDelay : Nat
  timeoutActions : Nat
  continueOnMinorErrors : Bool
  deriving Repr, DecidableEq

/-- ASCII-insensitive character normalisation used to model the `i` regex flag. -/
def lowerChar (c : Char) : Char := c.toLower

/-- Boolean list-prefix test, elementwise on characters. -/
def prefixB : List Char → List Char → Bool
  | [], _ => true
  | _ :: _, [] => false
  | a :: as, b :: bs => a == b && prefixB as bs

/-- Boolean list-infix test built on `prefixB`. -/
def infixB (p : List Char) : List Char → Bool
  | [] => p.isEmpty
  | b :: t => prefixB p (b :: t) || infixB p t

/-- Models `/pat/i.test(msg)` for the literal patterns used by
`ErrorHandler.shouldContinue`: case-insensitive substring containment. -/
def matchesCI (pat msg : String) : Bool :=
  infixB (pat.toList.map lowerChar) (msg.toList.map lowerChar)

/-- The minor-error pattern set of `ErrorHandler.shouldContinue` (all the
regexes there are literal strings under the `i` flag). -/
def minorErrorPatterns : List String :=
  ["waiting for selector", "element not found", "timeout", "timed out",
   "navigation failed", "navigating frame was detached", "net::err_"]

/-- The fatal pattern set of `ErrorHandler.shouldContinue`. -/
def fatalErrorPatterns : List String :=
  ["browser disconnected", "page crashed", "out of memory", "cannot launch browser"]

/-- `isFatal` in `ErrorHandler.shouldContinue`. -/
def isFatal (msg : String) : Bool :=
  fatalErrorPatterns.any fun p => matchesCI p msg

/-- `isMinor` in `ErrorHandler.shouldContinue`. -/
def isMinor (msg : String) : Bool :=
  minorErrorPatterns.any fun p => matchesCI p msg

/-- `ErrorHandler.shouldContinue(error)`: config gate first, then the fatal
set, then the minor set, then the conservative unknown-error default. -/
def shouldContinue (cfg : ErrorHandlingConfig) (msg : String) : Bool :=
  if !cfg.continueOnMinorErrors then false
  else if isFatal msg then false
  else if isMinor msg then true
  else false

/-- The retry loop of `ErrorHandler.retryWithBackoff`: `fuel` remaining
retries after the current invocation, `i` the index of the current
invocation.  With `fuel = 0` the current invocation is the last one and its
outcome (the last observed error, on failure) is returned as is. -/
def retryLoop (op : Nat → Except String α) : Nat → Nat → Except String α
  | 0, i => op i
  | fuel + 1, i =>
    match op i with
    | .ok v => .ok v
    | .error _ => retryLoop op fuel (i + 1)

/-- Number of invocations of `op` performed by `retryLoop` with the same
arguments. -/
def attemptsUsed (op : Nat → Except String α) : Nat → Nat → Nat
  | 0, _ => 1
  | fuel + 1, i =>
    match op i with
    | .ok _ => 1
    | .error _ => attemptsUsed op fuel (i + 1) + 1

/-- The JS expression `maxRetries || this.config.maxRetries`: both `null`
(no override) and `0` are falsy, so both fall back to the configured
default. -/
def effectiveRetries (override : Option Nat) (configDefault : Nat) : Nat :=
  match override with
  | none => configDefault
  | some n => if n = 0 then configDefault else n

/-- `ErrorHandler.retryWithBackoff(operation, context, maxRetries)`:
runs the loop for `effectiveRetries` retries, returning the first success
or the last observed error. -/
def retryWithBackoff (cfg : ErrorHandlingConfig) (op : Nat → Except String α)
    (override : Option Nat) : Except String α :=
  retryLoop op (effectiveRetries override cfg.maxRetries) 0

/-- Number of invocations of the operation performed by `retryWithBackoff`. -/
def retryAttempts (cfg : ErrorHandlingConfig) (op : Nat → Except String α)
    (override : Option Nat) : Nat :=
  attemptsUsed op (effectiveRetries override cfg.maxRetries) 0

/-- Sum of the durations of invocations `i, i+1, ..., i+k-1`. -/
def sumDur (dur : Nat → Nat) : Nat → Nat → Nat
  | 0, _ => 0
  | k + 1, i => dur i + sumDur dur k (i + 1)

/-- Wall-clock time at which the `retryWithBackoff` promise inside
`safeExecute` settles, measured from the start of the race: the durations
of all invocations actually performed plus one `retryDelay` wait after
every failed non-final attempt (the code skips the wait after the last
attempt, so there are `attempts - 1` waits). -/
def settleTime (cfg : ErrorHandlingConfig) (op : Nat → Except String α)
    (dur : Nat → Nat) : Nat :=
  let n := attemptsUsed op cfg.maxRetries 0
  sumDur dur n 0 + cfg.retryDelay * (n - 1)

/-- The message of the error created by `ErrorHandler.withTimeout`. -/
def timeoutMsg (t : Nat) (ctx : String) : String :=
  "Operation timed out after " ++ toString t ++ "ms: " ++ ctx

/-- `ErrorHandler.withTimeout`: a `Promise.race` between the wrapped
computation (settling at time `st` with outcome `inner`) and a timer that
rejects at `cfg.timeoutActions`.  The computation wins exactly when it
settles strictly before the timer fires. -/
def withTimeoutRace (cfg : ErrorHandlingConfig) (ctx : String)
    (inner : Except String α) (st : Nat) : Except String α :=
  if st < cfg.timeoutActions then inner
  else .error (timeoutMsg cfg.timeoutActions ctx)

/-- The catch block of `ErrorHandler.safeExecute`: a success is returned,
an error is passed to the Failure Classifier (via `handleError`) and then
either swallowed as `null` (modelled `none`) or re-raised. -/
def classifyOutcome (cfg : ErrorHandlingConfig) :
    Except String α → Except String (Option α)
  | .ok v => .ok (some v)
  | .error e => if shouldContinue cfg e then .ok none else .error e

/-- `ErrorHandler.safeExecute(operation, context, page)`: one timeout race
around the whole `retryWithBackoff` call (no per-call override, so the
configured defaults apply), then classification of any error. -/
def safeExecute (cfg : ErrorHandlingConfig) (ctx : String)
    (op : Nat → Except String α) (dur : Nat → Nat) : Except String (Option α) :=
  classifyOutcome cfg
    (withTimeoutRace cfg ctx (retryWithBackoff cfg op none) (settleTime cfg op dur))

/-- Guard behaviour as claim C1 reads the spec (for the refinement
comparison only, not a translation of the source): each individual attempt
is separately bounded by the per-action timeout, an attempt that does not
settle within it is treated as a failed attempt with the tagged timeout
error and is retried up to the configured bound, after which the last
error is classified exactly as in `safeExecute`. -/
def specGuard (cfg : ErrorHandlingConfig) (ctx : String)
    (op : Nat → Except String α) (dur : Nat → Nat) : Except String (Option α) :=
  let effOp : Nat → Except String α := fun i =>
    if dur i < cfg.timeoutActions then op i
    else .error (timeoutMsg cfg.timeoutActions ctx)
  classifyOutcome cfg (retryLoop effOp cfg.maxRetries 0)

/-- The `config.choices` slice consumed by `GamePlayer.determineChoice`. -/
structure ChoicesConfig where
  strategy : String
  pattern : List String
  deriving Repr, DecidableEq

/-- `GamePlayer.determineChoice()`.  `randomBelowHalf` models the outcome of
the comparison `Math.random() < 0.5`.  In the pattern branch the JS index
expression `pattern[choiceIndex % pattern.length]` yields `undefined` when
the pattern array is empty (index `NaN`), modelled by the `getD` default. -/
def determineChoice (choices : ChoicesConfig) (choiceIndex : Nat)
    (randomBelowHalf : Bool) : String :=
  if choices.strategy = "random" then
    if randomBelowHalf then "left" else "right"
  else if choices.strategy = "pattern" then
    choices.pattern.getD (choiceIndex % choices.pattern.length) "undefined"
  else if choices.strategy = "left" then "left"
  else if choices.strategy = "right" then "right"
  else "left"

/-- The per-run mutable state read by the round-verification check of
`GamePlayer.playScenarios`: the length of `this.gameStats` and the counter
`actualScenariosPlayed`. -/
structure RoundState where
  statsCount : Nat
  actualScenariosPlayed : Nat
  deriving Repr, DecidableEq

/-- One iteration of the `playScenarios` loop, with `newEvents` the number
of entries the console listener appended to `gameStats` during the round.
Returns the updated state and whether the round was counted as a verified
success: the code tests `gameStats.length > actualScenariosPlayed` and
increments the counter when the test passes. -/
def playRound (s : RoundState) (newEvents : Nat) : RoundState × Bool :=
  if s.actualScenariosPlayed < s.statsCount + newEvents then
    (⟨s.statsCount + newEvents, s.actualScenariosPlayed + 1⟩, true)
  else
    (⟨s.statsCount + newEvents, s.actualScenariosPlayed⟩, false)

/-- The full `playScenarios` loop over one list of per-round event counts
(one entry per configured scenario, `maxScenarios` in total).  Returns the
final state and the per-round verified flags; no round outcome stops the
loop. -/
def playScenarios : RoundState → List Nat → RoundState × List Bool
  | s, [] => (s, [])
  | s, e :: es =>
    let r1 := playRound s e
    let rest := playScenarios r1.1 es
    (rest.1, r1.2 :: rest.2)

/-- `GamePlayer.navigateToGame()`: `safeExecute` around the page load, then
the comparison `!== null` on its value; a re-raised error propagates. -/
def navigateToGame (cfg : ErrorHandlingConfig) (op : Nat → Except String Bool)
    (dur : Nat → Nat) : Except String Bool :=
  match safeExecute cfg "Navigate to game" op dur with
  | .ok r => .ok r.isSome
  | .error e => .error e

/-- Observable outcome of one `GamePlayer.playGame()` run: the returned
verdict, whether the scenario loop (the Iterating stage) was ever entered,
and whether the finally block ran `cleanup` and, inside it, the
`logger.finalize()` evidence flush (the cleanup method reaches `finalize`
in its own finally block even when closing the page or browser throws). -/
structure PlayGameTrace where
  success : Bool
  reachedIterating : Bool
  cleanupRan : Bool
  evidenceFlushed : Bool
  deriving Repr, DecidableEq

/-- `GamePlayer.playGame()`: init, navigate, start, scenarios in sequence
inside one try block whose catch sets no success and whose finally always
runs `cleanup`.  `initOk` and `startOk` are the boolean results of `init`
and `startGame`, `scen` the outcome of `playScenarios` (an error models an
uncaught throw inside the loop). -/
def playGame (cfg : ErrorHandlingConfig) (initOk : Bool)
    (navOp : Nat → Except String Bool) (navDur : Nat → Nat)
    (startOk : Bool) (scen : Except String Nat) : PlayGameTrace :=
  if initOk = true then
    match navigateToGame cfg navOp navDur with
    | .error _ => ⟨false, false, true, true⟩
    | .ok false => ⟨false, false, true, true⟩
    | .ok true =>
      if startOk = true then
        match scen with
        | .error _ => ⟨false, true, true, true⟩
        | .ok _ => ⟨true, true, true, true⟩
      else ⟨false, false, true, true⟩
  else ⟨false, false, true, true⟩

/-- Outcome of one `gamePlayer.playGame()` call as seen by the Scheduler:
a returned verdict or a thrown error. -/
inductive RunnerOutcome where
  | ok (success : Bool)
  | throws (msg : String)
  deriving Repr, DecidableEq

/-- Observable outcome of one `Scheduler.runGame()` trigger: the returned
value, the final value of `this.isRunning`, whether a `GamePlayer` was
invoked at all, and the value `isRunning` held at the moment of that
invocation. -/
structure RunGameResult where
  returned : Bool
  finalRunning : Bool
  runnerInvoked : Bool
  runningAtInvoke : Bool
  deriving Repr, DecidableEq

/-- `Scheduler.runGame()`: an early return `false` while a run is in
progress, otherwise the flag is set before the runner is invoked, the
catch turns a thrown error into `false`, and the finally block clears the
flag on every path. -/
def runGame (isRunning : Bool) (outcome : RunnerOutcome) : RunGameResult :=
  if isRunning then ⟨false, true, false, false⟩
  else
    match outcome with
    | .ok b => ⟨b, false, true, true⟩
    | .throws _ => ⟨false, false, true, true⟩

/-- Decidable equality of outcomes, used to evaluate the model on concrete
inputs. -/
instance [DecidableEq ε] [DecidableEq α] : DecidableEq (Except ε α) := fun x y =>
  match x, y with
  | .ok a, .ok b =>
    if h : a = b then .isTrue (by rw [h]) else .isFalse (by intro hc; cases hc; exact h rfl)
  | .error a, .error b =>
    if h : a = b then .isTrue (by rw [h]) else .isFalse (by intro hc; cases hc; exact h rfl)
  | .ok _, .error _ => .isFalse (fun hc => Except.noConfusion hc)
  | .error _, .ok _ => .isFalse (fun hc => Except.noConfusion hc)

/-- The empty pattern is a prefix of anything. -/
theorem prefixB_nil (l : List Char) : prefixB [] l = true := rfl

/-- The empty pattern is an infix of anything. -/
theorem infixB_nil (l : List Char) : infixB [] l = true := by
  induction l with
  | nil => rfl
  | cons b t ih => simp [infixB, prefixB_nil, ih]

/-- A prefix of `l` is a prefix of `l ++ r`. -/
theorem prefixB_append (p l r : List Char) (h : prefixB p l = true) :
    prefixB p (l ++ r) = true := by
  induction p generalizing l with
  | nil => exact prefixB_nil _
  | cons a as ih =>
    cases l with
    | nil => simp [prefixB] at h
    | cons b bs =>
      simp only [prefixB, Bool.and_eq_true] at h
      simp only [List.cons_append, prefixB, Bool.and_eq_true]
      exact ⟨h.1, ih bs h.2⟩

/-- An infix of `l` is an infix of `l ++ r`. -/
theorem infixB_append (p l r : List Char) (h : infixB p l = true) :
    infixB p (l ++ r) = true := by
  induction l with
  | nil =>
    cases p with
    | nil => exact infixB_nil r
    | cons a as => simp [infixB, List.isEmpty] at h
  | cons b t ih =>
    simp only [infixB, Bool.or_eq_true] at h
    simp only [List.cons_append, infixB, Bool.or_eq_true]
    rcases h with h | h
    · exact Or.inl (by simpa using prefixB_append p (b :: t) r h)
    · exact Or.inr (ih h)

/-- The timeout-error message always matches the minor pattern
`/timed out/i`, whatever the numeric bound and context tag are. -/
theorem matchesCI_timedOut_timeoutMsg (t : Nat) (ctx : String) :
    matchesCI "timed out" (timeoutMsg t ctx) = true := by
  unfold matchesCI timeoutMsg
  have h1 : ("Operation timed out after " ++ toString t ++ "ms: " ++ ctx).toList
      = "Operation timed out after ".toList
        ++ ((toString t).toList ++ ("ms: ".toList ++ ctx.toList)) := by
    simp [String.toList]
  rw [h1, List.map_append]
  exact infixB_append _ _ _ (by decide)

/-- The timeout-error message is classified as minor. -/
theorem isMinor_timeoutMsg (t : Nat) (ctx : String) :
    isMinor (timeoutMsg t ctx) = true := by
  simp [isMinor, minorErrorPatterns, matchesCI_timedOut_timeoutMsg]

/-- When the timeout message does not happen to match a fatal pattern
through its context tag, the classifier verdict on it is exactly the
`continueOnMinorErrors` switch. -/
theorem shouldContinue_timeoutMsg (cfg : ErrorHandlingConfig) (t : Nat) (ctx : String)
    (hFatal : isFatal (timeoutMsg t ctx) = false) :
    shouldContinue cfg (timeoutMsg t ctx) = cfg.continueOnMinorErrors := by
  cases hc : cfg.continueOnMinorErrors <;>
    simp [shouldContinue, hc, hFatal, isMinor_timeoutMsg]

/-- If every invocation fails, the retry loop returns the outcome of the
last attempt and performs exactly `fuel + 1` invocations. -/
theorem retryLoop_all_fail (op : Nat → Except String α)
    (h : ∀ i, (op i).isOk = false) :
    ∀ fuel i, retryLoop op fuel i = op (i + fuel) ∧ attemptsUsed op fuel i = fuel + 1 := by
  intro fuel
  induction fuel with
  | zero => intro i; simp [retryLoop, attemptsUsed]
  | succ fuel ih =>
    intro i
    cases hop : op i with
    | ok v =>
      have hi := h i
      rw [hop] at hi
      simp [Except.isOk, Except.toBool] at hi
    | error e =>
      have ih2 := ih (i + 1)
      have harith : i + 1 + fuel = i + (fuel + 1) := by omega
      constructor
      · rw [show retryLoop op (fuel + 1) i
            = (match op i with | .ok v => .ok v | .error _ => retryLoop op fuel (i + 1)) from rfl,
          hop]
        rw [ih2.1, harith]
      · rw [show attemptsUsed op (fuel + 1) i
            = (match op i with | .ok _ => 1 | .error _ => attemptsUsed op fuel (i + 1) + 1) from rfl,
          hop]
        rw [ih2.2]

/-- If the first `fuel` invocations fail and invocation `i + fuel`
succeeds with `v`, the retry loop returns `v` after exactly `fuel + 1`
invocations. -/
theorem retryLoop_succeeds (op : Nat → Except String α) (v : α) :
    ∀ fuel i, (∀ j, j < fuel → (op (i + j)).isOk = false) → op (i + fuel) = .ok v →
      retryLoop op fuel i = .ok v ∧ attemptsUsed op fuel i = fuel + 1 := by
  intro fuel
  induction fuel with
  | zero =>
    intro i hf hs
    refine ⟨?_, rfl⟩
    simpa [retryLoop] using hs
  | succ fuel ih =>
    intro i hf hs
    have h0 : (op i).isOk = false := by simpa using hf 0 (Nat.succ_pos fuel)
    cases hop : op i with
    | ok w =>
      rw [hop] at h0
      simp [Except.isOk, Except.toBool] at h0
    | error e =>
      have hf2 : ∀ j, j < fuel → (op (i + 1 + j)).isOk = false := by
        intro j hj
        have := hf (j + 1) (by omega)
        rwa [show i + (j + 1) = i + 1 + j by omega] at this
      have hs2 : op (i + 1 + fuel) = .ok v := by
        rwa [show i + 1 + fuel = i + (fuel + 1) by omega]
      have ihr := ih (i + 1) hf2 hs2
      constructor
      · rw [show retryLoop op (fuel + 1) i
            = (match op i with | .ok v => .ok v | .error _ => retryLoop op fuel (i + 1)) from rfl,
          hop]
        exact ihr.1
      · rw [show attemptsUsed op (fuel + 1) i
            = (match op i with | .ok _ => 1 | .error _ => attemptsUsed op fuel (i + 1) + 1) from rfl,
          hop]
        rw [ihr.2]

/-- Classification of an error outcome either swallows it as a partial
failure or re-raises the very same error. -/
theorem classifyOutcome_error_cases {α : Type u} (cfg : ErrorHandlingConfig) (e : String) :
    classifyOutcome (α := α) cfg (Except.error e) = Except.ok none ∨
    classifyOutcome (α := α) cfg (Except.error e) = Except.error e := by
  cases hsc : shouldContinue cfg e <;> simp [classifyOutcome, hsc]

/-- If every invocation of the wrapped operation fails, `safeExecute`
never produces a value: it either swallows the final error as `null` or
re-raises an error. -/
theorem safeExecute_all_fail (cfg : ErrorHandlingConfig) (ctx : String)
    (op : Nat → Except String α) (dur : Nat → Nat)
    (h : ∀ i, (op i).isOk = false) :
    safeExecute cfg ctx op dur = Except.ok none ∨
    ∃ e, safeExecute cfg ctx op dur = Except.error e := by
  have hl := retryLoop_all_fail op h (effectiveRetries none cfg.maxRetries) 0
  have hfail : (retryWithBackoff cfg op none).isOk = false := by
    rw [show retryWithBackoff cfg op none
        = retryLoop op (effectiveRetries none cfg.maxRetries) 0 from rfl, hl.1]
    exact h _
  obtain ⟨e0, hr⟩ : ∃ e0, retryWithBackoff cfg op none = Except.error e0 := by
    cases hrr : retryWithBackoff cfg op none with
    | ok w => rw [hrr] at hfail; simp [Except.isOk, Except.toBool] at hfail
    | error e0 => exact ⟨e0, rfl⟩
  obtain ⟨e2, he2⟩ : ∃ e2, withTimeoutRace cfg ctx (retryWithBackoff cfg op none)
      (settleTime cfg op dur) = Except.error e2 := by
    unfold withTimeoutRace
    by_cases hst : settleTime cfg op dur < cfg.timeoutActions
    · rw [if_pos hst]; exact ⟨e0, hr⟩
    · rw [if_neg hst]; exact ⟨_, rfl⟩
  unfold safeExecute
  rw [he2]
  rcases classifyOutcome_error_cases cfg e2 with hc | hc
  · exact Or.inl hc
  · exact Or.inr ⟨e2, hc⟩

/-- The scenario loop performs one round per configured scenario: no round
outcome shortens it. -/
theorem playScenarios_length (s : RoundState) (es : List Nat) :
    (playScenarios s es).2.length = es.length := by
  induction es generalizing s with
  | nil => rfl
  | cons e es ih => simp [playScenarios, ih]

/-- C1 counterexample: with `maxRetries = 1` and `timeoutActions = 100`,
an operation whose first invocation only settles after 200ms makes
`safeExecute` reject with the timeout error after that single attempt,
because the code races one timer against the whole retry loop and a
timeout error is classified, never retried; under the claimed
per-attempt-timeout guard (`specGuard`) the timed-out first attempt would
count as a failed attempt and the retry would succeed, returning the
value of invocation 2.  So `safeExecute` does not implement the claimed
per-attempt bound. -/
theorem safeExecute_claimC1_counterexample :
    safeExecute ⟨1, 0, 100, false⟩ "Navigate to game"
        (fun i => if i = 0 then (Except.ok 42 : Except String Nat) else Except.ok 7)
        (fun i => if i = 0 then 200 else 1)
      = Except.error (timeoutMsg 100 "Navigate to game") ∧
    specGuard ⟨1, 0, 100, false⟩ "Navigate to game"
        (fun i => if i = 0 then (Except.ok 42 : Except String Nat) else Except.ok 7)
        (fun i => if i = 0 then 200 else 1)
      = Except.ok (some 7) ∧
    safeExecute ⟨1, 0, 100, false⟩ "Navigate to game"
        (fun i => if i = 0 then (Except.ok 42 : Except String Nat) else Except.ok 7)
        (fun i => if i = 0 then 200 else 1)
      ≠ specGuard ⟨1, 0, 100, false⟩ "Navigate to game"
        (fun i => if i = 0 then (Except.ok 42 : Except String Nat) else Except.ok 7)
        (fun i => if i = 0 then 200 else 1) := by
  refine ⟨rfl, rfl, ?_⟩
  decide

/-- C1 amended: `safeExecute` races a single timeout against the entire
retry sequence.  Whenever the whole `retryWithBackoff` call settles no
earlier than `timeoutActions`, the result is the timeout error tagged by
the context, without any retry of that error: it is re-raised to the
caller when `continueOnMinorErrors` is off, and swallowed as a `null`
partial failure when it is on, because the timeout message matches the
minor pattern set (provided the context tag itself does not match a fatal
pattern). -/
theorem safeExecute_timeout_single_race (cfg : ErrorHandlingConfig) (ctx : String)
    (op : Nat → Except String α) (dur : Nat → Nat)
    (hT : cfg.timeoutActions ≤ settleTime cfg op dur)
    (hFatal : isFatal (timeoutMsg cfg.timeoutActions ctx) = false) :
    safeExecute cfg ctx op dur =
      if cfg.continueOnMinorErrors then Except.ok none
      else Except.error (timeoutMsg cfg.timeoutActions ctx) := by
  unfold safeExecute withTimeoutRace
  rw [if_neg (by omega)]
  simp only [classifyOutcome]
  rw [shouldContinue_timeoutMsg cfg _ _ hFatal]

/-- Witness for the amended C1 theorem at a concrete configuration: one
permitted attempt lasting 50ms against a 10ms timeout, with
`continueOnMinorErrors = true`, yields the swallowed `null` outcome. -/
theorem safeExecute_timeout_single_race_witness :
    (10 : Nat) ≤ settleTime ⟨0, 0, 10, true⟩
        (fun _ : Nat => (Except.error "still loading" : Except String Nat)) (fun _ => 50) ∧
    isFatal (timeoutMsg 10 "Navigate to game") = false ∧
    safeExecute ⟨0, 0, 10, true⟩ "Navigate to game"
        (fun _ : Nat => (Except.error "still loading" : Except String Nat)) (fun _ => 50)
      = Except.ok none :=
  ⟨by decide, by decide,
    safeExecute_timeout_single_race ⟨0, 0, 10, true⟩ "Navigate to game"
      (fun _ => Except.error "still loading") (fun _ => 50) (by decide) (by decide)⟩

/-- C2 counterexample: with two rounds producing 2 and then 0 new evidence
events, the second round adds nothing (post-round count 2 equals pre-round
count 2) yet the code counts it as a verified success, because it compares
the evidence count against `actualScenariosPlayed` (then 1), not against
the pre-round evidence count.  The claimed per-round flags would be
`[true, false]`. -/
theorem playScenarios_claimC2_counterexample :
    (playScenarios ⟨0, 0⟩ [2, 0]).2 = [true, true] ∧
    (playScenarios ⟨0, 0⟩ [2, 0]).2 ≠ List.map (fun e => decide (0 < e)) [2, 0] := by
  decide

/-- C2 amended: a round is counted as a verified success iff the
post-round evidence count strictly exceeds the number of rounds verified
so far (`actualScenariosPlayed`), not the pre-round evidence count.
Evidence growth during the round is sufficient for verification (under the
invariant that the verified count never exceeds the evidence count, which
every round preserves) but not necessary.  An unverified round does not
stop the loop: the loop always executes one round per configured
scenario. -/
theorem playRound_verified (s : RoundState) (e : Nat) (es : List Nat)
    (hinv : s.actualScenariosPlayed ≤ s.statsCount) :
    ((playRound s e).2 = decide (s.actualScenariosPlayed < s.statsCount + e)) ∧
    (0 < e → (playRound s e).2 = true) ∧
    (playRound s e).1.actualScenariosPlayed ≤ (playRound s e).1.statsCount ∧
    (playScenarios s es).2.length = es.length := by
  unfold playRound
  by_cases hc : s.actualScenariosPlayed < s.statsCount + e
  · rw [if_pos hc]
    exact ⟨by simp [hc], fun _ => rfl, by simp; omega, playScenarios_length s es⟩
  · rw [if_neg hc]
    refine ⟨by simp [hc], fun he => absurd (by omega) hc, by simp; omega,
      playScenarios_length s es⟩

/-- Witness for the amended C2 theorem at a concrete state: 3 evidence
events, 1 round verified so far, one new event in the round. -/
theorem playRound_verified_witness :
    (1 : Nat) ≤ 3 ∧
    (((playRound ⟨3, 1⟩ 1).2 = decide ((1 : Nat) < 3 + 1)) ∧
      (0 < 1 → (playRound ⟨3, 1⟩ 1).2 = true) ∧
      (playRound ⟨3, 1⟩ 1).1.actualScenariosPlayed ≤ (playRound ⟨3, 1⟩ 1).1.statsCount ∧
      (playScenarios ⟨3, 1⟩ [0, 2]).2.length = [0, 2].length) :=
  ⟨by decide, playRound_verified ⟨3, 1⟩ 1 [0, 2] (by decide)⟩

/-- C3: the Run Coordinator refuses a second session while `isRunning` is
true (returns false, invokes no runner, leaves the flag to the run that
holds it); when the flag is free it is set before the runner is invoked
and is false again after every completion path, including a runner that
throws. -/
theorem runGame_single_flight (o : RunnerOutcome) :
    runGame true o = ⟨false, true, false, false⟩ ∧
    (runGame false o).runnerInvoked = true ∧
    (runGame false o).runningAtInvoke = true ∧
    (runGame false o).finalRunning = false := by
  cases o <;> exact ⟨rfl, rfl, rfl, rfl⟩

/-- C4: when every invocation of the operation fails, `retryWithBackoff`
with the configured bound `maxRetries = r` and no override performs
exactly `r + 1` invocations and raises the last observed error (the
outcome of invocation `r`). -/
theorem retryWithBackoff_all_fail (cfg : ErrorHandlingConfig)
    (op : Nat → Except String α) (h : ∀ i, (op i).isOk = false) :
    retryWithBackoff cfg op none = op cfg.maxRetries ∧
    (retryWithBackoff cfg op none).isOk = false ∧
    retryAttempts cfg op none = cfg.maxRetries + 1 := by
  have hl := retryLoop_all_fail op h cfg.maxRetries 0
  refine ⟨?_, ?_, ?_⟩
  · rw [show retryWithBackoff cfg op none = retryLoop op cfg.maxRetries 0 from rfl, hl.1]
    simp
  · rw [show retryWithBackoff cfg op none = retryLoop op cfg.maxRetries 0 from rfl, hl.1]
    exact h _
  · rw [show retryAttempts cfg op none = attemptsUsed op cfg.maxRetries 0 from rfl, hl.2]

/-- Witness for C4: three failing attempts with `maxRetries = 2`. -/
theorem retryWithBackoff_all_fail_witness :
    (∀ i : Nat, ((fun _ : Nat => (Except.error "boom" : Except String Nat)) i).isOk = false) ∧
    (retryWithBackoff ⟨2, 5, 1000, false⟩
        (fun _ : Nat => (Except.error "boom" : Except String Nat)) none
        = (fun _ : Nat => (Except.error "boom" : Except String Nat)) 2 ∧
      (retryWithBackoff ⟨2, 5, 1000, false⟩
        (fun _ : Nat => (Except.error "boom" : Except String Nat)) none).isOk = false ∧
      retryAttempts ⟨2, 5, 1000, false⟩
        (fun _ : Nat => (Except.error "boom" : Except String Nat)) none = 2 + 1) :=
  ⟨fun _ => rfl,
    retryWithBackoff_all_fail ⟨2, 5, 1000, false⟩ (fun _ => Except.error "boom")
      (fun _ => rfl)⟩

/-- C5: when the operation fails on the first `maxRetries` invocations and
succeeds with `v` on invocation `maxRetries` (the `r+1`-st attempt),
`retryWithBackoff` with no override returns `v` and does not raise, after
exactly `r + 1` invocations. -/
theorem retryWithBackoff_eventual_success (cfg : ErrorHandlingConfig)
    (op : Nat → Except String α) (v : α)
    (hf : ∀ i, i < cfg.maxRetries → (op i).isOk = false)
    (hs : op cfg.maxRetries = Except.ok v) :
    retryWithBackoff cfg op none = Except.ok v ∧
    retryAttempts cfg op none = cfg.maxRetries + 1 := by
  have h := retryLoop_succeeds op v cfg.maxRetries 0 (by simpa using hf) (by simpa using hs)
  exact ⟨h.1, h.2⟩

/-- Witness for C5: two failures then a success with `maxRetries = 2`. -/
theorem retryWithBackoff_eventual_success_witness :
    (∀ i : Nat, i < 2 →
        ((fun j : Nat => if j < 2 then (Except.error "x" : Except String Nat)
          else Except.ok 42) i).isOk = false) ∧
    (fun j : Nat => if j < 2 then (Except.error "x" : Except String Nat)
        else Except.ok 42) 2 = Except.ok 42 ∧
    (retryWithBackoff ⟨2, 5, 1000, false⟩
        (fun j : Nat => if j < 2 then (Except.error "x" : Except String Nat)
          else Except.ok 42) none = Except.ok 42 ∧
      retryAttempts ⟨2, 5, 1000, false⟩
        (fun j : Nat => if j < 2 then (Except.error "x" : Except String Nat)
          else Except.ok 42) none = 2 + 1) :=
  ⟨by decide, by decide,
    retryWithBackoff_eventual_success ⟨2, 5, 1000, false⟩
      (fun j => if j < 2 then Except.error "x" else Except.ok 42) 42
      (by decide) (by decide)⟩

/-- C6: any message matching the fatal pattern set makes the classifier
abort (`shouldContinue = false`) for every configuration, including
`continueOnMinorErrors = true`, and regardless of whether the message also
matches a minor pattern (the fatal check runs first). -/
theorem shouldContinue_fatal (cfg : ErrorHandlingConfig) (msg : String)
    (h : isFatal msg = true) : shouldContinue cfg msg = false := by
  cases hc : cfg.continueOnMinorErrors <;> simp [shouldContinue, hc, h]

/-- Witness for C6 at a message matching both a fatal and a minor pattern,
with `continueOnMinorErrors = true`: the fatal set wins. -/
theorem shouldContinue_fatal_witness :
    isFatal "Page crashed: timeout waiting for selector" = true ∧
    shouldContinue ⟨3, 1000, 30000, true⟩ "Page crashed: timeout waiting for selector" = false :=
  ⟨by decide, shouldContinue_fatal ⟨3, 1000, 30000, true⟩ _ (by decide)⟩

/-- C7: any message matching neither the fatal nor the minor pattern set
makes the classifier abort for every configuration, including
`continueOnMinorErrors = true`. -/
theorem shouldContinue_unknown (cfg : ErrorHandlingConfig) (msg : String)
    (hf : isFatal msg = false) (hm : isMinor msg = false) :
    shouldContinue cfg msg = false := by
  cases hc : cfg.continueOnMinorErrors <;> simp [shouldContinue, hc, hf, hm]

/-- Witness for C7 at an unclassified message with
`continueOnMinorErrors = true`. -/
theorem shouldContinue_unknown_witness :
    isFatal "self destructed unexpectedly" = false ∧
    isMinor "self destructed unexpectedly" = false ∧
    shouldContinue ⟨3, 1000, 30000, true⟩ "self destructed unexpectedly" = false :=
  ⟨by decide, by decide,
    shouldContinue_unknown ⟨3, 1000, 30000, true⟩ _ (by decide) (by decide)⟩

/-- C8 counterexample: with a configured default of 2 and an explicit
override of 0, an always-failing operation is invoked 3 times, not the
single attempt the claim requires for `r = 0`, because the JS fallback
`maxRetries || config.maxRetries` treats 0 as falsy. -/
theorem retryAttempts_zero_override_counterexample :
    retryAttempts ⟨2, 5, 1000, false⟩
        (fun _ : Nat => (Except.error "boom" : Except String Nat)) (some 0) = 3 ∧
    retryAttempts ⟨2, 5, 1000, false⟩
        (fun _ : Nat => (Except.error "boom" : Except String Nat)) (some 0) ≠ 0 + 1 := by
  decide

/-- C8 amended: an explicit nonzero override `r` is used as the retry
bound (`r + 1` invocations when every attempt fails), but an override of
0, exactly like passing no override, falls back to the configured default,
because the JS `||` fallback treats 0 as falsy. -/
theorem retryAttempts_override (cfg : ErrorHandlingConfig)
    (op : Nat → Except String α) (r : Nat) (hr : r ≠ 0)
    (h : ∀ i, (op i).isOk = false) :
    retryAttempts cfg op (some r) = r + 1 ∧
    retryAttempts cfg op (some 0) = cfg.maxRetries + 1 ∧
    retryAttempts cfg op none = cfg.maxRetries + 1 := by
  have h1 := retryLoop_all_fail op h r 0
  have h2 := retryLoop_all_fail op h cfg.maxRetries 0
  refine ⟨?_, ?_, ?_⟩ <;> simp [retryAttempts, effectiveRetries, hr, h1.2, h2.2]

/-- Witness for the amended C8 theorem: override 1 gives 2 attempts while
override 0 and no override both give the configured 2 + 1 attempts. -/
theorem retryAttempts_override_witness :
    (1 : Nat) ≠ 0 ∧
    (∀ i : Nat, ((fun _ : Nat => (Except.error "boom" : Except String Nat)) i).isOk = false) ∧
    (retryAttempts ⟨2, 5, 1000, false⟩
        (fun _ : Nat => (Except.error "boom" : Except String Nat)) (some 1) = 1 + 1 ∧
      retryAttempts ⟨2, 5, 1000, false⟩
        (fun _ : Nat => (Except.error "boom" : Except String Nat)) (some 0) = 2 + 1 ∧
      retryAttempts ⟨2, 5, 1000, false⟩
        (fun _ : Nat => (Except.error "boom" : Except String Nat)) none = 2 + 1) :=
  ⟨by decide, fun _ => rfl,
    retryAttempts_override ⟨2, 5, 1000, false⟩ (fun _ => Except.error "boom") 1
      (by decide) (fun _ => rfl)⟩

/-- C9: if every invocation of the navigation step fails, `playGame` never
reaches the scenario loop (the Iterating stage), its verdict is
`success = false`, and the finally block still runs `cleanup` with its
evidence flush. -/
theorem playGame_nav_all_fail (cfg : ErrorHandlingConfig)
    (navOp : Nat → Except String Bool) (navDur : Nat → Nat)
    (startOk : Bool) (scen : Except String Nat)
    (h : ∀ i, (navOp i).isOk = false) :
    playGame cfg true navOp navDur startOk scen = ⟨false, false, true, true⟩ := by
  have hnav : navigateToGame cfg navOp navDur = Except.ok false ∨
      ∃ e, navigateToGame cfg navOp navDur = Except.error e := by
    unfold navigateToGame
    rcases safeExecute_all_fail cfg "Navigate to game" navOp navDur h with h1 | ⟨e, h1⟩
    · rw [h1]; exact Or.inl rfl
    · rw [h1]; exact Or.inr ⟨e, rfl⟩
  unfold playGame
  rw [if_pos rfl]
  rcases hnav with h1 | ⟨e, h1⟩ <;> rw [h1]

/-- Witness for C9: a navigation step that always rejects with a network
error, under a configuration that continues on minor errors (so the guard
swallows the error and navigation reports failure). -/
theorem playGame_nav_all_fail_witness :
    (∀ i : Nat,
        ((fun _ : Nat => (Except.error "net::ERR_CONNECTION_REFUSED" : Except String Bool)) i).isOk
          = false) ∧
    playGame ⟨1, 10, 100, true⟩ true
        (fun _ : Nat => (Except.error "net::ERR_CONNECTION_REFUSED" : Except String Bool))
        (fun _ : Nat => 3) true (Except.ok 5) = ⟨false, false, true, true⟩ :=
  ⟨fun _ => rfl,
    playGame_nav_all_fail ⟨1, 10, 100, true⟩
      (fun _ => Except.error "net::ERR_CONNECTION_REFUSED") (fun _ => 3) true
      (Except.ok 5) (fun _ => rfl)⟩

/-- C10: for any `choices.strategy` other than the four recognized values,
`determineChoice` falls through to the default branch and returns left,
for every choice index and random draw. -/
theorem determineChoice_default (choices : ChoicesConfig) (idx : Nat) (rnd : Bool)
    (h1 : choices.strategy ≠ "random") (h2 : choices.strategy ≠ "pattern")
    (h3 : choices.strategy ≠ "left") (h4 : choices.strategy ≠ "right") :
    determineChoice choices idx rnd = "left" := by
  unfold determineChoice
  rw [if_neg h1, if_neg h2, if_neg h3, if_neg h4]

/-- Witness for C10 at the unrecognized strategy string zigzag. -/
theorem determineChoice_default_witness :
    (("zigzag" : String) ≠ "random" ∧ ("zigzag" : String) ≠ "pattern" ∧
      ("zigzag" : String) ≠ "left" ∧ ("zigzag" : String) ≠ "right") ∧
    determineChoice ⟨"zigzag", ["left", "right"]⟩ 0 true = "left" :=
  ⟨⟨by decide, by decide, by decide, by decide⟩,
    determineChoice_default ⟨"zigzag", ["left", "right"]⟩ 0 true
      (by decide) (by decide) (by decide) (by decide)⟩

end JenkinsGame
